import Mathlib

/-
  Verification of the employee-recognition engine.

  Shallow embedding of the service layer:
  - RecognitionService (validation, keyword extraction, create / read /
    update / soft-delete, notification fanout, response formatting),
  - UserService role hierarchy (hasRole and the analytics gates),
  - AnalyticsService role gates.

  The database is modelled as an explicit state value (lists of user and
  recognition rows); Postgres queries become pure list operations with the
  same WHERE clauses.  JS exceptions become values of an error type Except;
  the error class of each thrown message follows the documented taxonomy
  (ValidationError / ConflictError / PermissionError / NotFoundError).
  The GraphQL pub/sub bus is modelled as an explicit publish function that
  may fail; machine integers do not occur (ids and timestamps are Nat).
  Keywords are stored JSON-encoded in the database column and re-decoded on
  every read; the encode/decode round trip on a list of strings is the
  identity, so the stored column is modelled as the list itself.
-/

set_option maxRecDepth 65536

namespace Recog

/-- Error taxonomy of the service layer.  The implementation throws plain
errors distinguished by message; each message is classified here by the
documented taxonomy. -/
inductive RecError where
  | validation (msg : String)
  | conflict (msg : String)
  | permission (msg : String)
  | notFound (msg : String)
  deriving DecidableEq, Repr, Inhabited

/-- Whether the first character list is a prefix of the second. -/
def charsPrefix : List Char → List Char → Bool
  | [], _ => true
  | _ :: _, [] => false
  | a :: as, b :: bs => a == b && charsPrefix as bs

/-- Whether the first character list occurs contiguously in the second. -/
def charsInfix (needle : List Char) : List Char → Bool
  | [] => charsPrefix needle []
  | b :: bs => charsPrefix needle (b :: bs) || charsInfix needle bs

/-- JS `haystack.includes(needle)` on strings (substring containment). -/
def strContains (haystack needle : String) : Bool :=
  charsInfix needle.toList haystack.toList

/-- JS `s.toLowerCase()`, modelled character-wise (Char.toLower lowers
the ASCII letters, which is all the messages of this system use). -/
def jsToLower (s : String) : String :=
  String.mk (s.toList.map Char.toLower)

/-- JS `s.trim()`: strip whitespace from both ends. -/
def jsTrim (s : String) : String :=
  String.mk (((s.toList.dropWhile Char.isWhitespace).reverse.dropWhile
    Char.isWhitespace).reverse)

/-- The fixed denylist used by validateMessage (after the separate check
for the word spam). -/
def blockedWords : List String :=
  [("offensive"), ("inappropriate"), ("hate")]

/-- RecognitionService.validateMessage: requires a non-blank message, at
most 500 characters (measured on the raw, untrimmed string), and no
blocked substring in the lowercased text. -/
def validateMessage (message : String) : Except RecError Unit :=
  if message = "" ∨ (jsTrim message).length = 0 then
    .error (.validation ("Message is required"))
  else if message.length > 500 then
    .error (.validation ("Message cannot exceed 500 characters"))
  else if strContains (jsToLower message) ("spam") then
    .error (.validation ("Message contains inappropriate content"))
  else if blockedWords.any (fun word => strContains (jsToLower message) word) then
    .error (.validation ("Message contains inappropriate content"))
  else
    .ok ()

/-- Whether a message is free of the blocked substrings of
validateMessage (spam and the denylist words), for stating claims. -/
def noBlockedContent (message : String) : Bool :=
  !(strContains (jsToLower message) ("spam")) &&
  !(blockedWords.any (fun word => strContains (jsToLower message) word))

/-- The visibilities accepted at creation time. -/
def validVisibilities : List String :=
  [("PUBLIC"), ("PRIVATE"), ("ANONYMOUS")]

/-- RecognitionService.validateVisibility: only PUBLIC, PRIVATE, ANONYMOUS
are legal creation visibilities. -/
def validateVisibility (visibility : String) : Except RecError Unit :=
  if validVisibilities.contains visibility then .ok ()
  else .error (.validation ("Invalid visibility setting. Must be PUBLIC, PRIVATE, or ANONYMOUS"))

/-- RecognitionService.validateRecipientSenderID: recipient id must be
non-empty and distinct from the sender id. -/
def validateRecipientSenderID (recipientId senderId : String) : Except RecError Unit :=
  if recipientId = "" then
    .error (.validation ("Recipient ID is required"))
  else if recipientId = senderId then
    .error (.conflict ("Cannot recognize yourself"))
  else
    .ok ()

/-- Input of createRecognition. -/
structure CreateRecognitionInput where
  recipientId : String
  message : String
  visibility : String
  deriving DecidableEq, Repr, Inhabited

/-- RecognitionService.validateRecognitionInput: message, then visibility,
then recipient-vs-sender, stopping at the first failure. -/
def validateRecognitionInput (input : CreateRecognitionInput) (userId : String) :
    Except RecError Unit :=
  match validateMessage input.message with
  | .error e => .error e
  | .ok _ =>
    match validateVisibility input.visibility with
    | .error e => .error e
    | .ok _ => validateRecipientSenderID input.recipientId userId

/-- The stop-word list of extractKeywords. -/
def stopWords : List String :=
  [("this"), ("that"), ("with"), ("have"), ("will"), ("been"), ("from"),
   ("they"), ("were"), ("said"), ("each"), ("which"), ("their"), ("time"), ("would")]

/-- The maximal whitespace-free runs of a string, in order. -/
def wsTokens (s : String) : List String :=
  ((s.toList.splitOnP Char.isWhitespace).map (fun g => String.mk g)).filter
    (fun t => t ≠ "")

/-- JS `s.split(/\s+/)`: the whitespace-free runs, plus an empty token at
the front when the string starts with whitespace and one at the back when
it ends with whitespace; the empty string splits to one empty token.
(The regex class \s is modelled by Char.isWhitespace.) -/
def jsSplitWs (s : String) : List String :=
  if s = "" then [("")]
  else
    (if s.toList.head?.any Char.isWhitespace then ("") :: wsTokens s else wsTokens s) ++
    (if s.toList.getLast?.any Char.isWhitespace then [("")] else [])

/-- JS regex test /^[a-zA-Z]+$/: non-empty and every character a letter
(Char.isAlpha is exactly the ASCII letter ranges). -/
def isJsAlphaToken (w : String) : Bool :=
  decide (0 < w.length) && w.toList.all Char.isAlpha

/-- RecognitionService.extractKeywords: empty (falsy) message gives no
keywords; otherwise lowercase, split on whitespace runs, keep tokens that
are longer than 3 characters, not stop words, and purely alphabetic, and
truncate to the first 5 survivors (original order, no deduplication). -/
def extractKeywords (message : String) : List String :=
  if message = "" then []
  else
    ((jsSplitWs (jsToLower message)).filter (fun word =>
      decide (word.length > 3) && !(stopWords.contains word) && isJsAlphaToken word)).take 5

/-- The keyword algorithm exactly as the specification words it: lowercase
the message, split on whitespace, keep a token only if its length exceeds
3, it consists solely of alphabetic characters, and it is not a stop word;
keep original order and truncate to the first 5 survivors; empty input
yields an empty sequence. -/
def extractKeywordsSpec (message : String) : List String :=
  ((wsTokens (jsToLower message)).filter (fun w =>
    decide (w.length > 3) && w.toList.all Char.isAlpha && !(stopWords.contains w))).take 5

namespace UserService

/-- UserService.hasRole role hierarchy: the lookup table with `|| 0` for
unrecognized roles. -/
def roleRank (role : String) : Nat :=
  if role = "EMPLOYEE" then 1
  else if role = "MANAGER" then 2
  else if role = "HR" then 3
  else if role = "ADMIN" then 4
  else 0

/-- UserService.hasRole: userLevel >= requiredLevel. -/
def hasRole (userRole requiredRole : String) : Bool :=
  decide (roleRank requiredRole ≤ roleRank userRole)

/-- UserService.canAccessTeamAnalytics. -/
def canAccessTeamAnalytics (userRole : String) : Bool :=
  hasRole userRole ("MANAGER")

/-- UserService.canAccessOrganizationAnalytics. -/
def canAccessOrganizationAnalytics (userRole : String) : Bool :=
  hasRole userRole ("HR")

end UserService

namespace AnalyticsService

/-- AnalyticsService.canAccessTeamAnalytics: membership in the allowed
role list. -/
def canAccessTeamAnalytics (userRole : String) : Bool :=
  [("MANAGER"), ("HR"), ("ADMIN")].contains userRole

/-- AnalyticsService.canAccessOrganizationAnalytics: membership in the
allowed role list. -/
def canAccessOrganizationAnalytics (userRole : String) : Bool :=
  [("HR"), ("ADMIN")].contains userRole

end AnalyticsService

/-- A row of the users table (team_id nullable). -/
structure UserRow where
  id : String
  name : String
  email : String
  team_id : Option String
  deriving DecidableEq, Repr, Inhabited

/-- A row of the recognitions table.  sender_id is nullable; the keywords
column stores the JSON encoding of the list (round trip modelled away). -/
structure RecognitionRow where
  id : Nat
  sender_id : Option String
  recipient_id : String
  message : String
  visibility : String
  keywords : List String
  created_at : Nat
  deriving DecidableEq, Repr, Inhabited

/-- The database state: the two tables, the id the next INSERT receives,
and the timestamp NOW() returns. -/
structure Database where
  users : List UserRow
  recognitions : List RecognitionRow
  nextId : Nat
  now : Nat
  deriving DecidableEq, Repr, Inhabited

/-- SELECT of a user row by primary key. -/
def findUser (db : Database) (id : String) : Option UserRow :=
  db.users.find? (fun u => u.id == id)

/-- RecognitionService.validateRecipient: the recipient must exist in the
users table. -/
def validateRecipient (db : Database) (recipientId : String) : Except RecError UserRow :=
  match findUser db recipientId with
  | some u => .ok u
  | none => .error (.notFound ("Recipient not found"))

/-- RecognitionService.insertRecognition: sender_id is NULL exactly for
ANONYMOUS visibility; the stored message is trimmed; created_at is NOW().
Returns the new database state and the inserted row (RETURNING *). -/
def insertRecognition (db : Database) (userId : String) (input : CreateRecognitionInput)
    (keywords : List String) : Database × RecognitionRow :=
  let row : RecognitionRow :=
    { id := db.nextId
      sender_id := if input.visibility = "ANONYMOUS" then none else some userId
      recipient_id := input.recipientId
      message := jsTrim input.message
      visibility := input.visibility
      keywords := keywords
      created_at := db.now }
  ({ db with recognitions := row :: db.recognitions, nextId := db.nextId + 1 }, row)

/-- The id/name/email triple used for recipients and senders in responses
and fanout payloads. -/
structure UserRef where
  id : String
  name : String
  email : String
  deriving DecidableEq, Repr, Inhabited

/-- The event object built by sendNotifications.  It carries the fields
the implementation writes: id, message, visibility, keywords, createdAt,
recipient — and nothing about the sender. -/
structure NotificationData where
  id : Nat
  message : String
  visibility : String
  keywords : List String
  createdAt : Nat
  recipient : UserRef
  deriving DecidableEq, Repr, Inhabited

/-- The payload sendNotifications publishes for a recognition. -/
def notificationData (recognition : RecognitionRow) (recipient : UserRow) : NotificationData :=
  { id := recognition.id
    message := recognition.message
    visibility := recognition.visibility
    keywords := recognition.keywords
    createdAt := recognition.created_at
    recipient := { id := recipient.id, name := recipient.name, email := recipient.email } }

/-- The pub/sub bus: publishing on a channel either succeeds or throws. -/
def Publish : Type := String → NotificationData → Except String Unit

/-- A bus on which every publish succeeds. -/
def alwaysOkPublish : Publish := fun _ _ => .ok ()

/-- RecognitionService.sendNotifications: inside a try/catch, publish the
event on RECOGNITION_RECEIVED, then — only for PUBLIC visibility — on
RECOGNITION_CREATED.  A thrown publish error is caught and logged, so the
function never fails; it returns the list of events actually published
(an exception also skips the remaining publish). -/
def sendNotifications (publish : Publish) (recognition : RecognitionRow)
    (recipient : UserRow) : List (String × NotificationData) :=
  let data := notificationData recognition recipient
  match publish ("RECOGNITION_RECEIVED") data with
  | .error _ => []
  | .ok _ =>
    if recognition.visibility = "PUBLIC" then
      match publish ("RECOGNITION_CREATED") data with
      | .error _ => [(("RECOGNITION_RECEIVED"), data)]
      | .ok _ => [(("RECOGNITION_RECEIVED"), data), (("RECOGNITION_CREATED"), data)]
    else [(("RECOGNITION_RECEIVED"), data)]

/-- The object createRecognition returns to the caller. -/
structure RecognitionResponse where
  id : Nat
  message : String
  visibility : String
  keywords : List String
  createdAt : Nat
  sender : Option UserRef
  recipient : UserRef
  deriving DecidableEq, Repr, Inhabited

/-- RecognitionService.formatRecognitionResponse: the sender block is null
exactly for ANONYMOUS visibility, otherwise the current user's identity
with the implementation's placeholder name and email. -/
def formatRecognitionResponse (recognition : RecognitionRow) (senderId : String)
    (recipient : UserRow) : RecognitionResponse :=
  { id := recognition.id
    message := recognition.message
    visibility := recognition.visibility
    keywords := recognition.keywords
    createdAt := recognition.created_at
    sender :=
      if recognition.visibility = "ANONYMOUS" then none
      else some { id := senderId, name := ("Current User"), email := ("current@company.com") }
    recipient := { id := recipient.id, name := recipient.name, email := recipient.email } }

/-- Everything observable about one createRecognition call: the database
afterwards, the events published on the bus, and the returned response. -/
structure CreateResult where
  db : Database
  published : List (String × NotificationData)
  response : RecognitionResponse
  deriving DecidableEq, Repr, Inhabited

/-- RecognitionService.createRecognition: validate the input, check the
recipient exists, extract keywords, persist, fan out (best effort), and
format the response. -/
def createRecognition (publish : Publish) (db : Database) (userId : String)
    (input : CreateRecognitionInput) : Except RecError CreateResult :=
  match validateRecognitionInput input userId with
  | .error e => .error e
  | .ok _ =>
    match validateRecipient db input.recipientId with
    | .error e => .error e
    | .ok recipient =>
      let keywords := extractKeywords input.message
      let inserted := insertRecognition db userId input keywords
      let published := sendNotifications publish inserted.2 recipient
      .ok { db := inserted.1
            published := published
            response := formatRecognitionResponse inserted.2 userId recipient }

/-- A joined sender/recipient block of formatRecognitionRow: name and
email come from a LEFT JOIN and may be NULL when the user row is gone. -/
structure JoinedRef where
  id : String
  name : Option String
  email : Option String
  deriving DecidableEq, Repr, Inhabited

/-- A recognition row formatted for the API, with the joined user data. -/
structure FormattedRecognition where
  id : Nat
  message : String
  visibility : String
  keywords : List String
  createdAt : Nat
  sender : Option JoinedRef
  recipient : JoinedRef
  deriving DecidableEq, Repr, Inhabited

/-- RecognitionService.formatRecognitionRow on a row produced by the list
and getById queries, whose LEFT JOIN supplies sender_name and
sender_email and whose inner JOIN supplies the recipient columns. -/
def formatRecognitionRow (db : Database) (row : RecognitionRow) : FormattedRecognition :=
  { id := row.id
    message := row.message
    visibility := row.visibility
    keywords := row.keywords
    createdAt := row.created_at
    sender := row.sender_id.map (fun sid =>
      { id := sid
        name := (findUser db sid).map UserRow.name
        email := (findUser db sid).map UserRow.email })
    recipient :=
      { id := row.recipient_id
        name := (findUser db row.recipient_id).map UserRow.name
        email := (findUser db row.recipient_id).map UserRow.email } }

/-- RecognitionService.formatRecognitionRow on a bare RETURNING * row of
UPDATE (no JOIN ran, so the name and email columns are absent). -/
def formatRecognitionRowBare (row : RecognitionRow) : FormattedRecognition :=
  { id := row.id
    message := row.message
    visibility := row.visibility
    keywords := row.keywords
    createdAt := row.created_at
    sender := row.sender_id.map (fun sid => { id := sid, name := none, email := none })
    recipient := { id := row.recipient_id, name := none, email := none } }

/-- Insert a row into a list already sorted by created_at descending. -/
def insertDesc (row : RecognitionRow) : List RecognitionRow → List RecognitionRow
  | [] => [row]
  | r :: rs =>
    if r.created_at ≤ row.created_at then row :: r :: rs else r :: insertDesc row rs

/-- ORDER BY created_at DESC. -/
def sortByCreatedAtDesc : List RecognitionRow → List RecognitionRow
  | [] => []
  | r :: rs => insertDesc r (sortByCreatedAtDesc rs)

/-- The optional filters of getRecognitions (GraphQL defaults apply when
a field is absent). -/
structure RecognitionFilters where
  limit : Option Nat
  visibility : Option String
  deriving DecidableEq, Repr, Inhabited

/-- The WHERE clause of getRecognitions: the row is PUBLIC or the viewer
is its sender or its recipient (SQL NULL sender_id never equals a user
id). -/
def viewableBy (userId : String) (r : RecognitionRow) : Bool :=
  r.visibility == "PUBLIC" || r.sender_id == some userId || r.recipient_id == userId

/-- RecognitionService.getRecognitions: rows whose recipient joins, that
satisfy the viewable predicate and the optional visibility filter, newest
first, capped at limit (default 20). -/
def getRecognitions (db : Database) (userId : String) (filters : RecognitionFilters) :
    List FormattedRecognition :=
  let lim := filters.limit.getD 20
  let base := db.recognitions.filter (fun r =>
    (findUser db r.recipient_id).isSome && viewableBy userId r)
  let filtered :=
    match filters.visibility with
    | some v => base.filter (fun r => r.visibility == v)
    | none => base
  ((sortByCreatedAtDesc filtered).take lim).map (formatRecognitionRow db)

/-- RecognitionService.getMyRecognitions: rows whose sender (for type
sent) or recipient (any other type, default received) is the viewer,
newest first, capped at limit (default 20). -/
def getMyRecognitions (db : Database) (userId : String) (type? : Option String)
    (limit? : Option Nat) : List FormattedRecognition :=
  let t := type?.getD ("received")
  let lim := limit?.getD 20
  let rows := db.recognitions.filter (fun r =>
    (findUser db r.recipient_id).isSome &&
    (if t = "sent" then r.sender_id == some userId else r.recipient_id == userId))
  ((sortByCreatedAtDesc rows).take lim).map (formatRecognitionRow db)

/-- RecognitionService.getRecognitionById: the row with the given id that
the viewer may see; absence and inaccessibility raise the same error. -/
def getRecognitionById (db : Database) (id : Nat) (userId : String) :
    Except RecError FormattedRecognition :=
  match db.recognitions.find? (fun r =>
      r.id == id && (findUser db r.recipient_id).isSome && viewableBy userId r) with
  | none => .error (.notFound ("Recognition not found or access denied"))
  | some r => .ok (formatRecognitionRow db r)

/-- Input of updateRecognition; message and visibility are optional, and
an empty-string message counts as supplied but falsy (JS truthiness). -/
structure UpdateRecognitionInput where
  id : Nat
  message : Option String
  visibility : Option String
  deriving DecidableEq, Repr, Inhabited

/-- RecognitionService.updateRecognition: fetch the row, require the
viewer to be its sender, validate and re-extract keywords only when a
truthy message is supplied (the visibility value is never validated),
reject when no field is supplied, and persist the new field values. -/
def updateRecognition (db : Database) (userId : String) (input : UpdateRecognitionInput) :
    Except RecError (Database × FormattedRecognition) :=
  match db.recognitions.find? (fun r => r.id == input.id) with
  | none => .error (.notFound ("Recognition not found"))
  | some recognition =>
    if recognition.sender_id ≠ some userId then
      .error (.permission ("You can only update your own recognitions"))
    else
      match (match input.message with
             | some m =>
               if m ≠ "" then (validateMessage m).map (fun _ => some (extractKeywords m))
               else .ok none
             | none => (.ok none : Except RecError (Option (List String)))) with
      | .error e => .error e
      | .ok newKeywords =>
        if input.message.isNone && input.visibility.isNone then
          .error (.validation ("No fields to update"))
        else
          let updated : RecognitionRow :=
            { recognition with
              message := input.message.getD recognition.message
              visibility := input.visibility.getD recognition.visibility
              keywords := newKeywords.getD recognition.keywords }
          let db2 : Database :=
            { db with recognitions := db.recognitions.map (fun r =>
                if r.id = input.id then updated else r) }
          .ok (db2, formatRecognitionRowBare updated)

/-- RecognitionService.deleteRecognition: fetch the row, require the
viewer to be its sender, and set the stored visibility to DELETED. -/
def deleteRecognition (db : Database) (id : Nat) (userId : String) :
    Except RecError (Database × Bool) :=
  match db.recognitions.find? (fun r => r.id == id) with
  | none => .error (.notFound ("Recognition not found"))
  | some recognition =>
    if recognition.sender_id ≠ some userId then
      .error (.permission ("You can only delete your own recognitions"))
    else
      let db2 : Database :=
        { db with recognitions := db.recognitions.map (fun r =>
            if r.id = id then { r with visibility := ("DELETED") } else r) }
      .ok (db2, true)

instance {ε α : Type} [DecidableEq ε] [DecidableEq α] : DecidableEq (Except ε α) :=
  fun x y =>
    match x, y with
    | .ok a, .ok b =>
      match decEq a b with
      | .isTrue h => .isTrue (congrArg Except.ok h)
      | .isFalse h => .isFalse (fun he => h (by injection he))
    | .error a, .error b =>
      match decEq a b with
      | .isTrue h => .isTrue (congrArg Except.error h)
      | .isFalse h => .isFalse (fun he => h (by injection he))
    | .ok _, .error _ => .isFalse (fun he => Except.noConfusion he)
    | .error _, .ok _ => .isFalse (fun he => Except.noConfusion he)

/-- Whether an Except value is a success. -/
def exceptOk {α : Type} (e : Except RecError α) : Bool :=
  match e with
  | .ok _ => true
  | .error _ => false

/-- Example user: the sender. -/
def exSender : UserRow := { id := "u1", name := "Ann", email := "ann@co", team_id := none }

/-- Example user: the recipient. -/
def exRecipient : UserRow := { id := "u2", name := "Ben", email := "ben@co", team_id := none }

/-- Example user: a third party, neither sender nor recipient. -/
def exThird : UserRow := { id := "u3", name := "Cal", email := "cal@co", team_id := none }

/-- Example recognition from u1 to u2, PUBLIC, with its keywords. -/
def exRow : RecognitionRow :=
  { id := 1, sender_id := some ("u1"), recipient_id := "u2",
    message := "Great work on the launch", visibility := "PUBLIC",
    keywords := [("great"), ("work"), ("launch")], created_at := 5 }

/-- Example database holding the three users and the one recognition. -/
def exDb : Database :=
  { users := [exSender, exRecipient, exThird], recognitions := [exRow], nextId := 2, now := 6 }

/-- The database after the sender soft-deletes the example recognition. -/
def exDbDeleted : Database :=
  match deleteRecognition exDb 1 ("u1") with
  | .ok p => p.1
  | .error _ => exDb

/-- A well-formed creation input from the example sender to the example
recipient. -/
def exInput : CreateRecognitionInput :=
  { recipientId := "u2", message := "Great work on the launch", visibility := "PUBLIC" }

/-- The example creation input with ANONYMOUS visibility. -/
def exInputAnon : CreateRecognitionInput :=
  { exInput with visibility := "ANONYMOUS" }

/-- A creation input whose recipient is a third user, so that distinct
senders u1 and u2 can both submit it. -/
def exInputToThird : CreateRecognitionInput :=
  { recipientId := "u3", message := "Great work on the launch", visibility := "PUBLIC" }

/-- A bus on which every publish fails. -/
def failingPublish : Publish := fun _ _ => .error ("bus down")

/-- The message of the C9 counterexample: one letter followed by 500
spaces, so 501 raw characters but 1 character after trimming. -/
def exMsg501Padded : String := String.mk (('a') :: List.replicate 500 (' '))

/-- A maximal legal message: 500 letters. -/
def exMsg500 : String := String.mk (List.replicate 500 ('a'))

/-- An over-long message: 501 letters. -/
def exMsg501 : String := String.mk (List.replicate 501 ('a'))

/-- The update call of the DELETED-reachability scenario. -/
def exUpdateDeleted : Except RecError (Database × FormattedRecognition) :=
  updateRecognition exDb ("u1") { id := 1, message := none, visibility := some ("DELETED") }

/-- Its successful outcome (the fallback branch is never taken). -/
def exUpdateDeletedResult : Database × FormattedRecognition :=
  match exUpdateDeleted with
  | .ok p => p
  | .error _ => (exDb, formatRecognitionRowBare exRow)

/-- Outcome of the example PUBLIC creation on an always-working bus. -/
def exCreateResult : CreateResult :=
  match createRecognition alwaysOkPublish exDb ("u1") exInput with
  | .ok r => r
  | .error _ => default

/-- Outcome of the example ANONYMOUS creation. -/
def exCreateAnonResult : CreateResult :=
  match createRecognition alwaysOkPublish exDb ("u1") exInputAnon with
  | .ok r => r
  | .error _ => default

/-- Outcome of the creation towards u3 submitted by u1. -/
def exCreateByU1 : CreateResult :=
  match createRecognition alwaysOkPublish exDb ("u1") exInputToThird with
  | .ok r => r
  | .error _ => default

/-- Outcome of the creation towards u3 submitted by u2. -/
def exCreateByU2 : CreateResult :=
  match createRecognition alwaysOkPublish exDb ("u2") exInputToThird with
  | .ok r => r
  | .error _ => default

theorem string_length_zero_iff (s : String) : s.length = 0 ↔ s = "" := by
  obtain ⟨d⟩ := s
  constructor
  · intro h
    have hd : d = [] := List.length_eq_zero.mp h
    rw [hd]
  · intro h
    rw [h]
    decide

theorem jsToLower_ne_empty {s : String} (h : s ≠ "") : jsToLower s ≠ "" := by
  obtain ⟨d⟩ := s
  intro hl
  apply h
  have hd : d.map Char.toLower = [] := congrArg String.data hl
  have hnil : d = [] := List.map_eq_nil_iff.mp hd
  rw [hnil]

theorem filterPred_code_eq_spec (w : String) :
    (decide (w.length > 3) && !(stopWords.contains w) && isJsAlphaToken w) =
      (decide (w.length > 3) && w.toList.all Char.isAlpha && !(stopWords.contains w)) := by
  by_cases h : w.length > 3
  · have h4 : decide (w.length > 3) = true := decide_eq_true h
    have h0 : decide (0 < w.length) = true := decide_eq_true (by omega)
    simp only [h4, isJsAlphaToken, h0, Bool.true_and]
    exact Bool.and_comm _ _
  · have h4 : decide (w.length > 3) = false := decide_eq_false h
    simp [h4]

theorem filter_jsSplitWs (p : String → Bool) (hp : p ("") = false) (t : String)
    (ht : t ≠ "") : (jsSplitWs t).filter p = (wsTokens t).filter p := by
  unfold jsSplitWs
  rw [if_neg ht, List.filter_append]
  cases hb1 : t.toList.head?.any Char.isWhitespace <;>
    cases hb2 : t.toList.getLast?.any Char.isWhitespace <;>
      simp [hb1, hb2, hp]

/-- C8: the keyword extractor agrees with the specification's algorithm on
every input (lowercase, split on whitespace, keep tokens longer than 3
characters that are purely alphabetic and not stop words, first 5
survivors in original order, empty for empty input), and on the spec's
seven-adjective example it returns exactly the first five words. -/
theorem extractKeywords_matches_spec :
    (∀ s : String, extractKeywords s = extractKeywordsSpec s) ∧
    extractKeywords ("excellent outstanding amazing fantastic wonderful brilliant incredible") =
      [("excellent"), ("outstanding"), ("amazing"), ("fantastic"), ("wonderful")] := by
  constructor
  · intro s
    by_cases hs : s = ""
    · subst hs; decide
    · unfold extractKeywords extractKeywordsSpec
      rw [if_neg hs]
      rw [List.filter_congr (fun w _ => filterPred_code_eq_spec w)]
      rw [filter_jsSplitWs _ (by decide) _ (jsToLower_ne_empty hs)]
  · decide

theorem createRecognition_ok_inv {publish : Publish} {db : Database} {userId : String}
    {input : CreateRecognitionInput} {result : CreateResult}
    (h : createRecognition publish db userId input = .ok result) :
    validateRecognitionInput input userId = .ok () ∧
    ∃ recipient, validateRecipient db input.recipientId = .ok recipient ∧
      result =
        { db := (insertRecognition db userId input (extractKeywords input.message)).1
          published := sendNotifications publish
            (insertRecognition db userId input (extractKeywords input.message)).2 recipient
          response := formatRecognitionResponse
            (insertRecognition db userId input (extractKeywords input.message)).2
            userId recipient } := by
  unfold createRecognition at h
  cases hv : validateRecognitionInput input userId with
  | error e =>
    rw [hv] at h
    exact Except.noConfusion h
  | ok u =>
    cases u
    rw [hv] at h
    cases hr : validateRecipient db input.recipientId with
    | error e =>
      rw [hr] at h
      exact Except.noConfusion h
    | ok recipient =>
      rw [hr] at h
      refine ⟨rfl, recipient, rfl, ?_⟩
      injection h with h2
      exact h2.symm

theorem validateRecognitionInput_ok_visibility {input : CreateRecognitionInput}
    {userId : String} (h : validateRecognitionInput input userId = .ok ()) :
    validVisibilities.contains input.visibility = true := by
  unfold validateRecognitionInput at h
  cases hm : validateMessage input.message with
  | error e =>
    rw [hm] at h
    exact Except.noConfusion h
  | ok u =>
    rw [hm] at h
    unfold validateVisibility at h
    by_cases hc : validVisibilities.contains input.visibility = true
    · exact hc
    · rw [if_neg hc] at h
      exact Except.noConfusion h

/-- C3: on every successful creation, the persisted record has a null
sender id exactly when the requested visibility is ANONYMOUS; for an
ANONYMOUS creation the formatted response carries a null sender; and the
fanout payload carries no sender at all — it is unchanged when the
persisted row's sender id is erased. -/
theorem anonymous_sender_suppressed {publish : Publish} {db : Database} {userId : String}
    {input : CreateRecognitionInput} {result : CreateResult}
    (h : createRecognition publish db userId input = .ok result) :
    (result.db.recognitions.head?.map RecognitionRow.sender_id = some none ↔
      input.visibility = ("ANONYMOUS")) ∧
    (input.visibility = ("ANONYMOUS") → result.response.sender = none) ∧
    (∀ (row : RecognitionRow) (recipient : UserRow),
      notificationData row recipient =
        notificationData { row with sender_id := none } recipient) := by
  obtain ⟨hv, recipient, hr, hres⟩ := createRecognition_ok_inv h
  subst hres
  refine ⟨?_, ?_, fun row recipient => rfl⟩
  · simp only [insertRecognition, List.head?, Option.map]
    by_cases ha : input.visibility = "ANONYMOUS" <;> simp [ha]
  · intro ha
    simp [formatRecognitionResponse, insertRecognition, ha]

/-- C5: whenever creation succeeds under one bus behavior, it succeeds
under every bus behavior with the same persisted database and the same
response — a publish failure is absorbed inside create, never propagated,
and never rolls back the inserted record. -/
theorem notification_failure_absorbed {publishA publishB : Publish} {db : Database}
    {userId : String} {input : CreateRecognitionInput} {result : CreateResult}
    (h : createRecognition publishA db userId input = .ok result) :
    (createRecognition publishB db userId input).map (fun r => (r.db, r.response)) =
      .ok (result.db, result.response) := by
  obtain ⟨hv, recipient, hr, hres⟩ := createRecognition_ok_inv h
  subst hres
  unfold createRecognition
  rw [hv, hr]
  rfl

/-- C6: when every publish succeeds, a successful creation publishes on
the recipient channel RECOGNITION_RECEIVED always, and on the public
broadcast channel RECOGNITION_CREATED exactly when the visibility is
PUBLIC. -/
theorem fanout_channels {publish : Publish} (hp : ∀ ch d, publish ch d = .ok ())
    {db : Database} {userId : String} {input : CreateRecognitionInput}
    {result : CreateResult} (h : createRecognition publish db userId input = .ok result) :
    result.published.map Prod.fst =
      if input.visibility = ("PUBLIC")
      then [("RECOGNITION_RECEIVED"), ("RECOGNITION_CREATED")]
      else [("RECOGNITION_RECEIVED")] := by
  obtain ⟨hv, recipient, hr, hres⟩ := createRecognition_ok_inv h
  subst hres
  have hins : (insertRecognition db userId input (extractKeywords input.message)).2.visibility
      = input.visibility := rfl
  simp only [sendNotifications, hp, hins]
  by_cases hvis : input.visibility = "PUBLIC" <;> simp [hvis]

theorem sendNotifications_ignores_sender (publish : Publish) (row : RecognitionRow)
    (recipient : UserRow) (sid : Option String) :
    sendNotifications publish { row with sender_id := sid } recipient =
      sendNotifications publish row recipient := rfl

/-- C10: two successful creations of the same input through the same bus
by two different senders publish identical event lists — the fanout
payload carries no sender field, so subscribers cannot learn the sender's
identity from a pushed event for any visibility. -/
theorem fanout_payload_sender_free {publish : Publish} {db : Database} {u1 u2 : String}
    {input : CreateRecognitionInput} {r1 r2 : CreateResult}
    (h1 : createRecognition publish db u1 input = .ok r1)
    (h2 : createRecognition publish db u2 input = .ok r2) :
    r1.published = r2.published := by
  obtain ⟨hv1, rec1, hr1, hres1⟩ := createRecognition_ok_inv h1
  obtain ⟨hv2, rec2, hr2, hres2⟩ := createRecognition_ok_inv h2
  subst hres1
  subst hres2
  rw [hr1] at hr2
  injection hr2 with hrec
  subst hrec
  show sendNotifications publish (insertRecognition db u1 input (extractKeywords input.message)).2 rec1 =
    sendNotifications publish (insertRecognition db u2 input (extractKeywords input.message)).2 rec1
  have e1 : (insertRecognition db u1 input (extractKeywords input.message)).2 =
      { (insertRecognition db u2 input (extractKeywords input.message)).2 with
        sender_id := if input.visibility = "ANONYMOUS" then none else some u1 } := rfl
  rw [e1, sendNotifications_ignores_sender]

/-- C1: after the sender soft-deletes the example recognition, the stored
visibility is DELETED, yet — because the list, listMine and getById
queries carry no `visibility != DELETED` clause — the record still
appears in getRecognitions and getMyRecognitions for the sender, and
getRecognitionById succeeds for both sender and recipient instead of
failing with NotFoundError; only a third party sees nothing. -/
theorem softDelete_still_visible_to_sender :
    exceptOk (deleteRecognition exDb 1 ("u1")) = true ∧
    exDbDeleted.recognitions.map RecognitionRow.visibility = [("DELETED")] ∧
    (getRecognitions exDbDeleted ("u1")
      { limit := none, visibility := none }).map FormattedRecognition.id = [1] ∧
    (getMyRecognitions exDbDeleted ("u1") (some ("sent")) none).map
      FormattedRecognition.id = [1] ∧
    (getMyRecognitions exDbDeleted ("u2") none none).map FormattedRecognition.id = [1] ∧
    exceptOk (getRecognitionById exDbDeleted 1 ("u1")) = true ∧
    exceptOk (getRecognitionById exDbDeleted 1 ("u2")) = true ∧
    getRecognitions exDbDeleted ("u3") { limit := none, visibility := none } = [] ∧
    getRecognitionById exDbDeleted 1 ("u3") =
      .error (.notFound ("Recognition not found or access denied")) := by
  decide

/-- C2 counterexample: an updateRecognition call by the sender with
visibility DELETED succeeds and stores visibility DELETED, so DELETED is
reachable outside the soft-delete operation. -/
theorem update_can_set_deleted :
    (updateRecognition exDb ("u1")
        { id := 1, message := none, visibility := some ("DELETED") }).map
      (fun p => p.1.recognitions.map RecognitionRow.visibility) = .ok [("DELETED")] := by
  decide

/-- C7 counterexample: a self-recognition whose message contains blocked
content fails with the ValidationError for inappropriate content, not
with the self-recognition ConflictError — message validation runs first,
so the ConflictError does not occur regardless of message content. -/
theorem self_recognition_message_checked_first :
    createRecognition alwaysOkPublish exDb ("u1")
        { recipientId := "u1", message := "spam", visibility := "PUBLIC" } =
      .error (.validation ("Message contains inappropriate content")) := by
  decide

/-- C4 helper: canAccessTeamAnalytics of AnalyticsService agrees with the
rank comparison for every role string. -/
theorem analyticsTeamGate_eq_rank (r : String) :
    AnalyticsService.canAccessTeamAnalytics r =
      decide (UserService.roleRank ("MANAGER") ≤ UserService.roleRank r) := by
  by_cases h1 : r = "EMPLOYEE"
  · subst h1; decide
  · by_cases h2 : r = "MANAGER"
    · subst h2; decide
    · by_cases h3 : r = "HR"
      · subst h3; decide
      · by_cases h4 : r = "ADMIN"
        · subst h4; decide
        · simp [AnalyticsService.canAccessTeamAnalytics, UserService.roleRank,
            List.contains, h1, h2, h3, h4]

/-- C4 helper: canAccessOrganizationAnalytics of AnalyticsService agrees
with the rank comparison for every role string. -/
theorem analyticsOrgGate_eq_rank (r : String) :
    AnalyticsService.canAccessOrganizationAnalytics r =
      decide (UserService.roleRank ("HR") ≤ UserService.roleRank r) := by
  by_cases h1 : r = "EMPLOYEE"
  · subst h1; decide
  · by_cases h2 : r = "MANAGER"
    · subst h2; decide
    · by_cases h3 : r = "HR"
      · subst h3; decide
      · by_cases h4 : r = "ADMIN"
        · subst h4; decide
        · simp [AnalyticsService.canAccessOrganizationAnalytics, UserService.roleRank,
            List.contains, h1, h2, h3, h4]

/-- C4: for every role string, both analytics gates — in the UserService
implementation and in the AnalyticsService implementation — hold exactly
when the role's rank reaches the MANAGER rank (team) respectively the HR
rank (organization), where rank maps EMPLOYEE, MANAGER, HR, ADMIN to
1, 2, 3, 4 and every other string to 0. -/
theorem role_gates_match_rank (r : String) :
    UserService.roleRank ("EMPLOYEE") = 1 ∧
    UserService.roleRank ("MANAGER") = 2 ∧
    UserService.roleRank ("HR") = 3 ∧
    UserService.roleRank ("ADMIN") = 4 ∧
    (r ∉ [("EMPLOYEE"), ("MANAGER"), ("HR"), ("ADMIN")] → UserService.roleRank r = 0) ∧
    UserService.canAccessTeamAnalytics r =
      decide (UserService.roleRank ("MANAGER") ≤ UserService.roleRank r) ∧
    UserService.canAccessOrganizationAnalytics r =
      decide (UserService.roleRank ("HR") ≤ UserService.roleRank r) ∧
    AnalyticsService.canAccessTeamAnalytics r =
      decide (UserService.roleRank ("MANAGER") ≤ UserService.roleRank r) ∧
    AnalyticsService.canAccessOrganizationAnalytics r =
      decide (UserService.roleRank ("HR") ≤ UserService.roleRank r) := by
  refine ⟨rfl, rfl, rfl, rfl, ?_, rfl, rfl, analyticsTeamGate_eq_rank r,
    analyticsOrgGate_eq_rank r⟩
  intro h
  simp only [List.mem_cons, List.mem_singleton, not_or] at h
  obtain ⟨h1, h2, h3, h4, _⟩ := h
  simp [UserService.roleRank, h1, h2, h3, h4]

/-- C2 amended: DELETED is rejected as a creation visibility — the
creation validator fails on it and every successful creation persists a
non-DELETED visibility — but updateRecognition performs no visibility
validation, so an update by the sender whose visibility field is DELETED
does store visibility DELETED. -/
theorem deleted_only_rejected_at_creation :
    (validateVisibility ("DELETED") =
      .error (.validation
        ("Invalid visibility setting. Must be PUBLIC, PRIVATE, or ANONYMOUS"))) ∧
    (∀ (publish : Publish) (db : Database) (userId : String)
      (input : CreateRecognitionInput) (result : CreateResult),
        createRecognition publish db userId input = .ok result →
        result.db.recognitions.head?.map RecognitionRow.visibility = some input.visibility ∧
        input.visibility ≠ ("DELETED")) ∧
    (∀ (db : Database) (userId : String) (input : UpdateRecognitionInput)
      (result : Database × FormattedRecognition),
        updateRecognition db userId input = .ok result →
        input.visibility = some ("DELETED") →
        ∃ row ∈ result.1.recognitions, row.visibility = ("DELETED")) := by
  refine ⟨by decide, ?_, ?_⟩
  · intro publish db userId input result h
    obtain ⟨hv, recipient, hr, hres⟩ := createRecognition_ok_inv h
    subst hres
    have hc := validateRecognitionInput_ok_visibility hv
    refine ⟨rfl, ?_⟩
    intro hd
    rw [hd] at hc
    exact absurd hc (by decide)
  · intro db userId input result h hdel
    unfold updateRecognition at h
    split at h
    next => exact Except.noConfusion h
    next recognition hf =>
      split at h
      next => exact Except.noConfusion h
      next hown =>
        split at h
        next e hms => exact Except.noConfusion h
        next newKeywords hms =>
          split at h
          next => exact Except.noConfusion h
          next hno =>
            injection h with h2
            have hid : recognition.id = input.id := by
              have hp := List.find?_some hf
              simpa using hp
            have hmem : recognition ∈ db.recognitions := List.mem_of_find?_eq_some hf
            refine ⟨{ recognition with
                message := input.message.getD recognition.message
                visibility := input.visibility.getD recognition.visibility
                keywords := newKeywords.getD recognition.keywords }, ?_, ?_⟩
            · rw [← h2]
              have himg := List.mem_map_of_mem
                (fun r => if r.id = input.id then
                  { recognition with
                    message := input.message.getD recognition.message
                    visibility := input.visibility.getD recognition.visibility
                    keywords := newKeywords.getD recognition.keywords }
                  else r) hmem
              simpa [hid] using himg
            · rw [hdel]
              rfl

/-- C2 amended, witnessed: the concrete update of the example recognition
with visibility DELETED leaves a DELETED row in the database. -/
theorem deleted_reachable_witness :
    ∃ row ∈ exUpdateDeletedResult.1.recognitions, row.visibility = ("DELETED") :=
  deleted_only_rejected_at_creation.2.2 exDb ("u1")
    { id := 1, message := none, visibility := some ("DELETED") }
    exUpdateDeletedResult (by decide) (by decide)

/-- C7 amended: when the message and the visibility pass their validators
and the non-empty recipient id equals the sender id, createRecognition
fails with the self-recognition ConflictError, before any persistence. -/
theorem self_recognition_conflict {publish : Publish} {db : Database} {userId : String}
    {input : CreateRecognitionInput}
    (hmsg : validateMessage input.message = .ok ())
    (hvis : validateVisibility input.visibility = .ok ())
    (hne : input.recipientId ≠ "")
    (hself : input.recipientId = userId) :
    createRecognition publish db userId input =
      .error (.conflict ("Cannot recognize yourself")) := by
  unfold createRecognition validateRecognitionInput validateRecipientSenderID
  rw [hmsg, hvis, if_neg hne, if_pos hself]

/-- C7 amended, witnessed at a concrete self-recognition call with a
legal message and visibility. -/
theorem self_recognition_conflict_witness :
    createRecognition alwaysOkPublish exDb ("u1")
        { recipientId := "u1", message := "Great work on the launch", visibility := "PUBLIC" } =
      .error (.conflict ("Cannot recognize yourself")) :=
  self_recognition_conflict (by decide) (by decide) (by decide) (by decide)

/-- C9 amended: the 500-character bound of validateMessage applies to the
raw, untrimmed message — a non-blank message of raw length at most 500
with no blocked substring is accepted, a blank-after-trimming message
fails with the required-message ValidationError, and a non-blank message
of raw length above 500 fails with the length ValidationError. -/
theorem message_length_checked_raw (m : String) :
    (jsTrim m ≠ "" → m.length ≤ 500 → noBlockedContent m = true →
      validateMessage m = .ok ()) ∧
    (jsTrim m = "" → validateMessage m = .error (.validation ("Message is required"))) ∧
    (jsTrim m ≠ "" → m.length > 500 →
      validateMessage m = .error (.validation ("Message cannot exceed 500 characters"))) := by
  have hblank : m = "" → jsTrim m = "" := by
    intro h
    rw [h]
    decide
  refine ⟨?_, ?_, ?_⟩
  · intro ht hlen hnb
    have h1 : ¬(m = "" ∨ (jsTrim m).length = 0) := by
      rintro (h | h)
      · exact ht (hblank h)
      · exact ht ((string_length_zero_iff _).mp h)
    have h2 : ¬(m.length > 500) := by omega
    have hnb2 := hnb
    unfold noBlockedContent at hnb2
    rw [Bool.and_eq_true, Bool.not_eq_true', Bool.not_eq_true'] at hnb2
    obtain ⟨hA, hB⟩ := hnb2
    simp [validateMessage, h1, h2, hA, hB]
  · intro ht
    have h0 : (jsTrim m).length = 0 := (string_length_zero_iff _).mpr ht
    simp [validateMessage, h0]
  · intro ht hlen
    have h1 : ¬(m = "" ∨ (jsTrim m).length = 0) := by
      rintro (h | h)
      · exact ht (hblank h)
      · exact ht ((string_length_zero_iff _).mp h)
    simp [validateMessage, h1, hlen]

/-- C9 amended, witnessed: 500 letters are accepted, 501 letters are
rejected for length, and a blank message is rejected as required. -/
theorem message_length_witness :
    validateMessage exMsg500 = .ok () ∧
    validateMessage exMsg501 =
      .error (.validation ("Message cannot exceed 500 characters")) ∧
    validateMessage (" ") = .error (.validation ("Message is required")) :=
  ⟨(message_length_checked_raw exMsg500).1 (by decide) (by decide) (by decide),
   (message_length_checked_raw exMsg501).2.2 (by decide) (by decide),
   (message_length_checked_raw (" ")).2.1 (by decide)⟩

/-- C9 counterexample: a message of one letter plus 500 spaces has
trimmed length 1 — inside the 1..500 window measured after trimming, and
free of blocked substrings — yet validateMessage rejects it, because the
length check runs on the raw string of 501 characters. -/
theorem trimmed_length_in_range_rejected :
    (jsTrim exMsg501Padded).length = 1 ∧
    noBlockedContent exMsg501Padded = true ∧
    validateMessage exMsg501Padded =
      .error (.validation ("Message cannot exceed 500 characters")) := by
  decide

/-- C3 witness: the concrete ANONYMOUS creation has a null persisted
sender id, a null response sender, and a sender-free payload. -/
theorem anonymous_sender_suppressed_witness :
    (exCreateAnonResult.db.recognitions.head?.map RecognitionRow.sender_id = some none ↔
      exInputAnon.visibility = ("ANONYMOUS")) ∧
    (exInputAnon.visibility = ("ANONYMOUS") → exCreateAnonResult.response.sender = none) ∧
    (∀ (row : RecognitionRow) (recipient : UserRow),
      notificationData row recipient =
        notificationData { row with sender_id := none } recipient) :=
  @anonymous_sender_suppressed alwaysOkPublish exDb ("u1") exInputAnon
    exCreateAnonResult (by decide)

/-- C5 witness: the example creation on a bus whose every publish throws
still returns the same persisted database and the same response as the
creation on a working bus. -/
theorem notification_failure_absorbed_witness :
    (createRecognition failingPublish exDb ("u1") exInput).map (fun r => (r.db, r.response)) =
      .ok (exCreateResult.db, exCreateResult.response) :=
  @notification_failure_absorbed alwaysOkPublish failingPublish exDb ("u1") exInput
    exCreateResult (by decide)

/-- C6 witness: the example PUBLIC creation publishes on the recipient
channel and on the public channel. -/
theorem fanout_channels_witness :
    exCreateResult.published.map Prod.fst =
      if exInput.visibility = ("PUBLIC")
      then [("RECOGNITION_RECEIVED"), ("RECOGNITION_CREATED")]
      else [("RECOGNITION_RECEIVED")] :=
  @fanout_channels alwaysOkPublish (fun ch d => rfl) exDb ("u1") exInput
    exCreateResult (by decide)

/-- C10 witness: the same creation input submitted by u1 and by u2
publishes identical event lists. -/
theorem fanout_payload_sender_free_witness :
    exCreateByU1.published = exCreateByU2.published :=
  @fanout_payload_sender_free alwaysOkPublish exDb ("u1") ("u2") exInputToThird
    exCreateByU1 exCreateByU2 (by decide) (by decide)

end Recog
